import Mathlib

/-!
Shallow embedding of the per-device worker of sd-miner-v1.1.0.py
(repository StakingBridge/heurist, file src/miner-release/sd-miner-v1.1.0.py).

Modeling conventions:
- Python float timestamps (time.time()) are modeled as integers; each
  distinct call to time.time() in the source is a distinct explicit
  input.  The worker only ever compares a difference of two timestamps
  against a threshold, so every branch decision of the source is
  represented faithfully on this domain.
- External collaborators from sd_mining_core (post_request, log_response,
  get_hardware_description, get_local_model_ids, reload_model,
  submit_job_result) are modeled as oracle inputs: the call site receives
  the call outcome as a parameter.  A raised Python Exception is carried
  as Except.error with its message; raising SystemExit (sys.exit, which
  is NOT a subclass of Exception and so escapes an "except Exception"
  handler) is a separate constructor.
- Parsed JSON response bodies are association lists from string keys to
  opaque values; only the keys are ever inspected by this file.
  Python truthiness of a dict is non-emptiness; of None it is falsity.
-/

deriving instance DecidableEq for Except

namespace SDMiner

/-- A JSON value as stored in a parsed response dict.  The worker never
inspects the structure of a value (only key presence), so values are
kept opaque: a string payload or null. -/
inductive JVal where
  | s (v : String)
  | null
deriving DecidableEq, Repr

/-- A parsed JSON object: association list from keys to values. -/
abbrev Jdict := List (String × JVal)

/-- Python truthiness of an optional parsed-JSON dict: None is falsy and
an empty dict is falsy; any non-empty dict is truthy. -/
def dictTruthy : Option Jdict → Bool
  | none => false
  | some d => !d.isEmpty

/-- An HTTP response as seen by this file: status code and body text. -/
structure HttpResp where
  status_code : Nat
  text : String
deriving DecidableEq, Repr

/-- Truthiness of a requests.Response object: its bool conversion is the
ok-status test (status code below 400). -/
def respTruthy (r : HttpResp) : Bool := r.status_code < 400

/-- A raised Python exception, split by whether an "except Exception"
handler catches it.  sys.exit raises SystemExit, which derives from
BaseException but not Exception, so it escapes the worker loop's
catch-all handler. -/
inductive PyErr where
  | exc (msg : String)
  | systemExit (code : Nat)
deriving DecidableEq, Repr

/-- The fields of MinerConfig read by the worker loop (config.toml values
plus the mutable last_heartbeat timestamp and the loaded-model set). -/
structure Config where
  miner_id : String
  version : String
  base_url : String
  signal_url : String
  reload_interval : ℤ
  sleep_duration : ℤ
  min_deadline : ℤ
  exclude_sdxl : Bool
  num_cuda_devices : Nat
  loaded_models : List String
  last_heartbeat : ℤ

/-- The request body built by send_miner_request.  hardware and version
are attached only on a stale heartbeat. -/
structure RequestData where
  miner_id : String
  model_id : Option String
  min_deadline : ℤ
  hardware : Option String
  version : Option String
deriving DecidableEq, Repr

/-- Environment of one send_miner_request call: the time.time() samples in
source order, the external hardware description, and the outcomes of the
external calls post_request and log_response. -/
structure SendEnv where
  tHbCheck : ℤ
  tHbSet : ℤ
  tStart : ℤ
  tEnd : ℤ
  hardware : String
  post : Except String (Option HttpResp)
  logged : Except String (Option Jdict)

/-- Everything observable about one send_miner_request call: the request
body handed to post_request, the value of config.last_heartbeat after the
call (the mutation happens before post_request, so it survives a raised
exception), whether a coordinator warning was printed, and the returned
pair (response_data, request_latency) or the raised exception. -/
structure SendOutcome where
  request : RequestData
  newLastHeartbeat : ℤ
  warningPrinted : Bool
  result : Except String (Option Jdict × ℤ)

/-- Embedding of send_miner_request (lines 55-90).  The heartbeat branch
runs first: if at least 60 seconds elapsed since config.last_heartbeat,
the hardware and version fields are attached and last_heartbeat is set to
a fresh time.time() sample.  Then post_request is issued; on a truthy
response whose text contains the marker the warning is printed; then
log_response produces response_data, returned with the latency. -/
def send_miner_request (cfg : Config) (model_id : Option String)
    (min_deadline : ℤ) (env : SendEnv) : SendOutcome :=
  let rd : RequestData :=
    { miner_id := cfg.miner_id
      model_id := model_id
      min_deadline := min_deadline
      hardware :=
        if (60 : ℤ) ≤ env.tHbCheck - cfg.last_heartbeat then some env.hardware
        else none
      version :=
        if (60 : ℤ) ≤ env.tHbCheck - cfg.last_heartbeat then some cfg.version
        else none }
  let newHb : ℤ :=
    if (60 : ℤ) ≤ env.tHbCheck - cfg.last_heartbeat then env.tHbSet
    else cfg.last_heartbeat
  match env.post with
  | .error m =>
      { request := rd, newLastHeartbeat := newHb, warningPrinted := false
        result := .error m }
  | .ok resp =>
      let warn : Bool :=
        match resp with
        | some r => respTruthy r && ((r.text.splitOn "Warning:").length > 1)
        | none => false
      match env.logged with
      | .error m =>
          { request := rd, newLastHeartbeat := newHb, warningPrinted := warn
            result := .error m }
      | .ok response_data =>
          { request := rd, newLastHeartbeat := newHb, warningPrinted := warn
            result := .ok (response_data, env.tEnd - env.tStart) }

/-- Environment of one check_and_reload_model call: the time.time()
sample, the outcomes of post_request, of response.json().get applied to
the model_id key, of get_local_model_ids, and of reload_model. -/
structure SignalEnv where
  now : ℤ
  post : Except String (Option HttpResp)
  jsonModelId : Except String (Option String)
  localModelIds : List String
  reloadOk : Except String Unit

/-- Everything observable about one check_and_reload_model call: whether
the signal request was issued, which model (if any) reload_model was
invoked for, whether the soft-failure log line ran, and the returned
last_signal_time or the raised exception. -/
structure CheckOutcome where
  signalRequestSent : Bool
  reloadCalled : Option String
  loggedError : Bool
  result : Except String ℤ

/-- Embedding of check_and_reload_model (lines 92-113).  The signal
request is issued only when at least reload_interval elapsed since
last_signal_time; reload_model runs only when the signaled model id is in
local storage and not in the loaded-model set; the local variable
last_signal_time is reassigned to current_time after a reload; the final
line returns that local when the window against it is still open and
current_time otherwise. -/
def check_and_reload_model (cfg : Config) (last_signal_time : ℤ)
    (env : SignalEnv) : CheckOutcome :=
  let finalRet : ℤ → ℤ := fun lst =>
    if env.now - lst < cfg.reload_interval then lst else env.now
  if cfg.reload_interval ≤ env.now - last_signal_time then
    match env.post with
    | .error m =>
        { signalRequestSent := true, reloadCalled := none
          loggedError := false, result := .error m }
    | .ok resp =>
        match resp with
        | some r =>
            if r.status_code = 200 then
              match env.jsonModelId with
              | .error m =>
                  { signalRequestSent := true, reloadCalled := none
                    loggedError := false, result := .error m }
              | .ok mid =>
                  match mid with
                  | some m =>
                      if m ∈ env.localModelIds ∧ m ∉ cfg.loaded_models then
                        match env.reloadOk with
                        | .error e =>
                            { signalRequestSent := true, reloadCalled := some m
                              loggedError := false, result := .error e }
                        | .ok _ =>
                            { signalRequestSent := true, reloadCalled := some m
                              loggedError := false
                              result := .ok (finalRet env.now) }
                      else
                        { signalRequestSent := true, reloadCalled := none
                          loggedError := false
                          result := .ok (finalRet last_signal_time) }
                  | none =>
                      { signalRequestSent := true, reloadCalled := none
                        loggedError := false
                        result := .ok (finalRet last_signal_time) }
            else
              { signalRequestSent := true, reloadCalled := none
                loggedError := true, result := .ok (finalRet last_signal_time) }
        | none =>
            { signalRequestSent := true, reloadCalled := none
              loggedError := true, result := .ok (finalRet last_signal_time) }
  else
    { signalRequestSent := false, reloadCalled := none
      loggedError := false, result := .ok (finalRet last_signal_time) }

/-- Environment of one process_jobs call: the snapshot returned by
get_local_model_ids, the environment of the inner send_miner_request
call, the job_start_time sample, and the outcome of submit_job_result. -/
structure ProcEnv where
  localModelIds : List String
  send : SendEnv
  tJobStart : ℤ
  submitOk : Except String Unit

/-- Everything observable about one process_jobs call: the request body
handed to post_request by the inner send_miner_request (none when the
call never happened), the heartbeat timestamp after the call, whether
the idle log line ran, the job dict submit_job_result was invoked with
(none when it was not invoked), and the returned boolean or the raised
error.  sys.exit(0) on an empty local model list appears as
PyErr.systemExit 0. -/
structure ProcOutcome where
  minerRequest : Option RequestData
  newLastHeartbeat : ℤ
  loggedNoJob : Bool
  submitted : Option Jdict
  result : Except PyErr Bool

/-- Embedding of process_jobs (lines 115-130).  The active model is the
first entry of the loaded-model set (None when empty); an empty local
model list exits the process with status 0; a falsy response_data logs
the idle message and returns False; a truthy one is indexed at job_id,
model_id and temp_credentials (each missing key raises KeyError) and then
submitted, returning True. -/
def process_jobs (cfg : Config) (env : ProcEnv) : ProcOutcome :=
  let current_model_id : Option String := cfg.loaded_models.head?
  if env.localModelIds.isEmpty then
    { minerRequest := none, newLastHeartbeat := cfg.last_heartbeat
      loggedNoJob := false, submitted := none
      result := .error (.systemExit 0) }
  else
    let s := send_miner_request cfg current_model_id cfg.min_deadline env.send
    match s.result with
    | .error m =>
        { minerRequest := some s.request, newLastHeartbeat := s.newLastHeartbeat
          loggedNoJob := false, submitted := none, result := .error (.exc m) }
    | .ok (response_data, _latency) =>
        if dictTruthy response_data = false then
          { minerRequest := some s.request, newLastHeartbeat := s.newLastHeartbeat
            loggedNoJob := true, submitted := none, result := .ok false }
        else
          let d : Jdict := response_data.getD []
          match d.lookup "job_id" with
          | none =>
              { minerRequest := some s.request
                newLastHeartbeat := s.newLastHeartbeat
                loggedNoJob := false, submitted := none
                result := .error (.exc "KeyError: job_id") }
          | some _ =>
              match d.lookup "model_id" with
              | none =>
                  { minerRequest := some s.request
                    newLastHeartbeat := s.newLastHeartbeat
                    loggedNoJob := false, submitted := none
                    result := .error (.exc "KeyError: model_id") }
              | some _ =>
                  match d.lookup "temp_credentials" with
                  | none =>
                      { minerRequest := some s.request
                        newLastHeartbeat := s.newLastHeartbeat
                        loggedNoJob := false, submitted := none
                        result := .error (.exc "KeyError: temp_credentials") }
                  | some _ =>
                      match env.submitOk with
                      | .error m =>
                          { minerRequest := some s.request
                            newLastHeartbeat := s.newLastHeartbeat
                            loggedNoJob := false, submitted := some d
                            result := .error (.exc m) }
                      | .ok _ =>
                          { minerRequest := some s.request
                            newLastHeartbeat := s.newLastHeartbeat
                            loggedNoJob := false, submitted := some d
                            result := .ok true }

/-- Environment of one iteration of the main worker loop: the
environments of the check_and_reload_model call and of the process_jobs
call made during that iteration. -/
structure IterEnv where
  check : SignalEnv
  proc : ProcEnv

/-- How one iteration of the worker loop ends: the process terminates
with an exit status (an uncaught SystemExit), or the loop continues with
an updated last_signal_time and the executed flag of this iteration. -/
inductive IterOutcome where
  | exited (code : Nat)
  | next (lastSignalTime : ℤ) (executed : Bool)
deriving DecidableEq, Repr

/-- Everything observable about one iteration of the worker loop body
(lines 146-154): the network effects of the two calls, whether the
catch-all handler logged an error, the duration slept (none when the
iteration did not sleep), and how the iteration ended. -/
structure IterResult where
  signalRequestSent : Bool
  reloadCalled : Option String
  minerRequest : Option RequestData
  submitted : Option Jdict
  loggedIterError : Bool
  sleptFor : Option ℤ
  outcome : IterOutcome

/-- Embedding of one iteration of the while-loop in main (lines 146-154).
check_and_reload_model runs first and its result is assigned to
last_signal_time; then process_jobs runs; any Exception from either call
is caught by the except-Exception handler, logged, and the iteration is
treated as not executed; SystemExit is not an Exception and terminates
the process; finally the loop sleeps sleep_duration exactly when
executed is false. -/
def loop_iteration (cfg : Config) (last_signal_time : ℤ) (env : IterEnv) :
    IterResult :=
  let c := check_and_reload_model cfg last_signal_time env.check
  match c.result with
  | .error _ =>
      { signalRequestSent := c.signalRequestSent, reloadCalled := c.reloadCalled
        minerRequest := none, submitted := none, loggedIterError := true
        sleptFor := some cfg.sleep_duration
        outcome := .next last_signal_time false }
  | .ok lst' =>
      let p := process_jobs cfg env.proc
      match p.result with
      | .error (.exc _) =>
          { signalRequestSent := c.signalRequestSent
            reloadCalled := c.reloadCalled
            minerRequest := p.minerRequest, submitted := p.submitted
            loggedIterError := true, sleptFor := some cfg.sleep_duration
            outcome := .next lst' false }
      | .error (.systemExit code) =>
          { signalRequestSent := c.signalRequestSent
            reloadCalled := c.reloadCalled
            minerRequest := p.minerRequest, submitted := p.submitted
            loggedIterError := false, sleptFor := none
            outcome := .exited code }
      | .ok executed =>
          { signalRequestSent := c.signalRequestSent
            reloadCalled := c.reloadCalled
            minerRequest := p.minerRequest, submitted := p.submitted
            loggedIterError := false
            sleptFor := if executed then none else some cfg.sleep_duration
            outcome := .next lst' executed }

/-- Outcome of the supervisor startup sequence after config load: the
device indices for which a worker process was spawned, and how the
sequence ended (exit status, propagated exception, or running with the
workers spawned). -/
structure SupervisorStart where
  spawned : List Nat
  result : Except PyErr Unit

/-- Embedding of the device-count gate and process fan-out of the
top-level block (lines 170-190).  When the configured device count
exceeds the physically available count, the process prints a message and
exits with status 1 before anything else runs; otherwise check_cuda,
fetch_and_download_config_files and the updater-thread start run (their
combined outcome is the preSpawn oracle), and then one worker process is
spawned per device index. -/
def supervisor_startup (cfg : Config) (availableCudaDevices : Nat)
    (preSpawn : Except String Unit) : SupervisorStart :=
  if availableCudaDevices < cfg.num_cuda_devices then
    { spawned := [], result := .error (.systemExit 1) }
  else
    match preSpawn with
    | .error m => { spawned := [], result := .error (.exc m) }
    | .ok _ =>
        { spawned := List.range cfg.num_cuda_devices, result := .ok () }

/-- Embedding of the validation loop of MinerConfig._load_and_validate_miner_ids
(lines 31-39) applied to the list of environment-variable lookups: the
first unset MINER_ID raises ValueError; otherwise the list of values is
returned.  The 0x-prefix test only prints a warning and never changes
the outcome. -/
def validate_miner_ids : List (Option String) → Except String (List String)
  | [] => .ok []
  | none :: _ => .error "Miner ID not found in .env."
  | some s :: rest =>
      match validate_miner_ids rest with
      | .error m => .error m
      | .ok vs => .ok (s :: vs)

/-- The miner ids the validation loop warns about: exactly those not
starting with 0x (line 37-38). -/
def miner_id_warnings (ids : List String) : List String :=
  ids.filter (fun s => !(s.startsWith "0x"))

/-- Embedding of MinerConfig._assign_miner_id (lines 41-48).  Python
string truthiness is non-emptiness; list indexing is modeled with a
default (call sites keep the index below the list length). -/
def assign_miner_id (numCudaDevices : Nat) (minerIds : List String)
    (cudaDeviceId : Nat) : Except String String :=
  if 1 < numCudaDevices ∧ minerIds.getD cudaDeviceId "" ≠ "" then
    .ok (minerIds.getD cudaDeviceId "")
  else if minerIds.getD 0 "" ≠ "" then
    .ok (minerIds.getD 0 "")
  else
    .error "miner_id not found in .env."

/-- The miner identity MinerConfig.__init__ assigns to a device:
os.getenv is modeled as the envVar function, the MINER_ID list for
indices 0..numCudaDevices-1 is validated, and the id for cudaDeviceId is
selected (lines 23-48). -/
def minerConfig_miner_id (envVar : Nat → Option String)
    (numCudaDevices cudaDeviceId : Nat) : Except String String :=
  match validate_miner_ids ((List.range numCudaDevices).map envVar) with
  | .error m => .error m
  | .ok ids => assign_miner_id numCudaDevices ids cudaDeviceId

/-! Concrete fixtures used by the witness and counterexample theorems. -/

/-- A concrete config: one device, model m1 loaded, reload interval 600,
sleep duration 2, heartbeat last reset at time 0. -/
def cfgA : Config :=
  { miner_id := "0xabc", version := "1.1.0", base_url := "b", signal_url := "s",
    reload_interval := 600, sleep_duration := 2, min_deadline := 60,
    exclude_sdxl := false, num_cuda_devices := 1, loaded_models := ["m1"],
    last_heartbeat := 0 }

/-- A send environment at time 10 whose coordinator answer parses to a
dict holding a single warning key and no job fields. -/
def sendEnvA : SendEnv :=
  { tHbCheck := 10, tHbSet := 10, tStart := 10, tEnd := 11, hardware := "gpu",
    post := .ok (some ⟨200, "ok"⟩), logged := .ok (some [("warning", .s "w")]) }

/-- A process_jobs environment with model m1 in local storage and the
warning-only response of sendEnvA. -/
def procEnvA : ProcEnv :=
  { localModelIds := ["m1"], send := sendEnvA, tJobStart := 12, submitOk := .ok () }

/-- A signal environment at time 700 (so the 600-second window of cfgA
has elapsed) whose signal endpoint answers with status 500. -/
def sigEnvFail : SignalEnv :=
  { now := 700, post := .ok (some ⟨500, "err"⟩), jsonModelId := .ok none,
    localModelIds := ["m1"], reloadOk := .ok () }

/-- A signal environment at time 700 whose signal endpoint answers 200
with model id m2, which is in local storage and not loaded in cfgA. -/
def sigEnvSwap : SignalEnv :=
  { now := 700, post := .ok (some ⟨200, "ok"⟩), jsonModelId := .ok (some "m2"),
    localModelIds := ["m1", "m2"], reloadOk := .ok () }

/-- The guard distinguishing a complete job dict: presence of the three
keys process_jobs indexes before and during submission. -/
def hasAllJobKeys (d : Jdict) : Bool :=
  (d.lookup "job_id").isSome && (d.lookup "model_id").isSome
    && (d.lookup "temp_credentials").isSome

/-- A complete job dict: job_id, model_id and temp_credentials present. -/
def jobDict : Jdict :=
  [("job_id", .s "j1"), ("model_id", .s "m1"), ("temp_credentials", .s "c")]

/-- sendEnvA with the coordinator answering the complete job jobDict. -/
def sendEnvJob : SendEnv := { sendEnvA with logged := .ok (some jobDict) }

/-- procEnvA with the complete job response of sendEnvJob. -/
def procEnvJob : ProcEnv := { procEnvA with send := sendEnvJob }

/-- A process_jobs environment with an empty local model storage. -/
def procEnvEmpty : ProcEnv := { procEnvA with localModelIds := [] }

/-- A signal environment at time 5: the 600-second window of cfgA has not
elapsed since time 0, so no signal request is due. -/
def sigEnvIdle : SignalEnv :=
  { now := 5, post := .ok none, jsonModelId := .ok none,
    localModelIds := [], reloadOk := .ok () }

/-- An iteration environment with a throttled reload check and an empty
local model storage. -/
def iterEnvEmpty : IterEnv := { check := sigEnvIdle, proc := procEnvEmpty }

/-- An iteration environment whose reload check gets a 500 answer and
whose job response is the keyless warning dict of procEnvA. -/
def iterEnvWarn : IterEnv := { check := sigEnvFail, proc := procEnvA }

/-- A signal environment whose post_request call raises an Exception. -/
def sigEnvRaise : SignalEnv :=
  { now := 700, post := .error "connection reset", jsonModelId := .ok none,
    localModelIds := ["m1"], reloadOk := .ok () }

/-- An iteration environment whose reload check raises. -/
def iterEnvRaise : IterEnv := { check := sigEnvRaise, proc := procEnvA }

/-- cfgA with an empty loaded-model set. -/
def cfgNoLoaded : Config := { cfgA with loaded_models := [] }

/-- Helper: the request body and the post-call heartbeat timestamp of
send_miner_request, as functions of the pre-call state and time samples
alone. -/
theorem send_miner_request_spec (cfg : Config) (model_id : Option String)
    (min_deadline : ℤ) (env : SendEnv) :
    (send_miner_request cfg model_id min_deadline env).request =
      { miner_id := cfg.miner_id
        model_id := model_id
        min_deadline := min_deadline
        hardware :=
          if (60 : ℤ) ≤ env.tHbCheck - cfg.last_heartbeat then some env.hardware
          else none
        version :=
          if (60 : ℤ) ≤ env.tHbCheck - cfg.last_heartbeat then some cfg.version
          else none }
    ∧ (send_miner_request cfg model_id min_deadline env).newLastHeartbeat =
      (if (60 : ℤ) ≤ env.tHbCheck - cfg.last_heartbeat then env.tHbSet
       else cfg.last_heartbeat) := by
  obtain ⟨t1, t2, t3, t4, hw, post, logged⟩ := env
  unfold send_miner_request
  rcases post with m | resp
  · exact ⟨rfl, rfl⟩
  · rcases logged with m | rdta <;> exact ⟨rfl, rfl⟩

/-- C4: in send_miner_request the hardware and version fields are attached
to the outgoing request body iff at least 60 seconds elapsed since
config.last_heartbeat, the heartbeat timestamp is advanced (to the fresh
time sample taken at the attachment) exactly when they are attached and
left unchanged otherwise, and both the request body and the advanced
heartbeat are independent of the post_request and log_response outcomes:
the advance happens before the request is sent and is the same whether
the request succeeds or fails. -/
theorem C4_heartbeat_attachment (cfg : Config) (model_id : Option String)
    (min_deadline : ℤ) (env : SendEnv) :
    ((send_miner_request cfg model_id min_deadline env).request.hardware.isSome
        = true ↔ (60 : ℤ) ≤ env.tHbCheck - cfg.last_heartbeat)
    ∧ ((send_miner_request cfg model_id min_deadline env).request.version.isSome
        = true ↔ (60 : ℤ) ≤ env.tHbCheck - cfg.last_heartbeat)
    ∧ ((send_miner_request cfg model_id min_deadline env).newLastHeartbeat =
        if (60 : ℤ) ≤ env.tHbCheck - cfg.last_heartbeat then env.tHbSet
        else cfg.last_heartbeat)
    ∧ (∀ post2 logged2,
        (send_miner_request cfg model_id min_deadline
            { env with post := post2, logged := logged2 }).request =
          (send_miner_request cfg model_id min_deadline env).request
        ∧ (send_miner_request cfg model_id min_deadline
            { env with post := post2, logged := logged2 }).newLastHeartbeat =
          (send_miner_request cfg model_id min_deadline env).newLastHeartbeat) := by
  obtain ⟨h1, h2⟩ := send_miner_request_spec cfg model_id min_deadline env
  refine ⟨?_, ?_, h2, ?_⟩
  · rw [h1]
    by_cases h : (60 : ℤ) ≤ env.tHbCheck - cfg.last_heartbeat <;> simp [h]
  · rw [h1]
    by_cases h : (60 : ℤ) ≤ env.tHbCheck - cfg.last_heartbeat <;> simp [h]
  · intro post2 logged2
    obtain ⟨g1, g2⟩ := send_miner_request_spec cfg model_id min_deadline
      { env with post := post2, logged := logged2 }
    rw [g1, h1, g2, h2]
    exact ⟨rfl, rfl⟩

/-- C3: the signal-endpoint request of check_and_reload_model is issued
iff at least reload_interval elapsed since the last signal time, and
reload_model is invoked only for a signaled model id that is present in
local storage and not a member of the loaded-model set. -/
theorem C3_reload_gating (cfg : Config) (lst : ℤ) (env : SignalEnv) :
    ((check_and_reload_model cfg lst env).signalRequestSent = true ↔
      cfg.reload_interval ≤ env.now - lst)
    ∧ (∀ m, (check_and_reload_model cfg lst env).reloadCalled = some m →
        m ∈ env.localModelIds ∧ m ∉ cfg.loaded_models) := by
  obtain ⟨now, post, jm, lids, rok⟩ := env
  unfold check_and_reload_model
  constructor
  · repeat' split
    all_goals simp_all
  · intro m
    repeat' split
    all_goals simp_all
    all_goals (intro he; subst he; assumption)

/-- C3 witness: at time 700 against cfgA (window 600, last signal 0) the
request is issued, and in sigEnvSwap reload_model runs for m2, which is
indeed locally stored and not loaded. -/
theorem C3_reload_gating_witness :
    (check_and_reload_model cfgA 0 sigEnvSwap).signalRequestSent = true
    ∧ ("m2" ∈ sigEnvSwap.localModelIds ∧ "m2" ∉ cfgA.loaded_models) :=
  ⟨(C3_reload_gating cfgA 0 sigEnvSwap).1.mpr (by decide),
   (C3_reload_gating cfgA 0 sigEnvSwap).2 "m2" rfl⟩

/-- C4 witness: with the heartbeat last reset at time 0 and the check at
time 100, the hardware field is attached. -/
theorem C4_heartbeat_attachment_witness :
    (send_miner_request cfgA (some "m1") 60
      { tHbCheck := 100, tHbSet := 100, tStart := 100, tEnd := 101,
        hardware := "gpu", post := .ok none,
        logged := .ok none }).request.hardware.isSome = true :=
  (C4_heartbeat_attachment cfgA (some "m1") 60
    { tHbCheck := 100, tHbSet := 100, tStart := 100, tEnd := 101,
      hardware := "gpu", post := .ok none, logged := .ok none }).1.mpr
    (by decide)

/-- C2 counterexample: against cfgA (reload window 600) with last signal
time 0, a check at time 700 whose signal endpoint answers 500 logs the
failure but returns 700, not the input 0: the last-check timestamp is
reset even though the cycle failed. -/
theorem C2_counterexample :
    cfgA.reload_interval ≤ (700 : ℤ) - 0
    ∧ (check_and_reload_model cfgA 0 sigEnvFail).loggedError = true
    ∧ (check_and_reload_model cfgA 0 sigEnvFail).result = .ok 700
    ∧ (700 : ℤ) ≠ 0 :=
  ⟨by decide, rfl, rfl, by decide⟩

/-- C2 amended: when the elapsed time since the last check is at least
reload_interval and the signal endpoint yields a missing response or any
non-200 status, the failure is logged and no model swap occurs, but the
returned last-signal time is the current time, not the input time: the
check window is reset even by a failed check. -/
theorem C2_amended_failed_check (cfg : Config) (lst : ℤ) (env : SignalEnv)
    (hdue : cfg.reload_interval ≤ env.now - lst)
    (hfail : env.post = .ok none ∨
      ∃ r, env.post = .ok (some r) ∧ r.status_code ≠ 200) :
    (check_and_reload_model cfg lst env).loggedError = true
    ∧ (check_and_reload_model cfg lst env).reloadCalled = none
    ∧ (check_and_reload_model cfg lst env).result = .ok env.now := by
  obtain ⟨now, post, jm, lids, rok⟩ := env
  unfold check_and_reload_model
  dsimp only at hdue hfail ⊢
  rw [if_pos hdue]
  have hnot : ¬ (now - lst < cfg.reload_interval) := not_lt.mpr hdue
  rcases hfail with hnone | ⟨r, hsome, hstatus⟩
  · rw [hnone]
    exact ⟨rfl, rfl, by rw [if_neg hnot]⟩
  · rw [hsome]
    dsimp only
    rw [if_neg hstatus]
    exact ⟨rfl, rfl, by rw [if_neg hnot]⟩

/-- C2 witness: the amended statement at the concrete failing check of
the counterexample. -/
theorem C2_amended_failed_check_witness :
    (check_and_reload_model cfgA 0 sigEnvFail).loggedError = true
    ∧ (check_and_reload_model cfgA 0 sigEnvFail).reloadCalled = none
    ∧ (check_and_reload_model cfgA 0 sigEnvFail).result = .ok 700 :=
  C2_amended_failed_check cfgA 0 sigEnvFail (by decide)
    (Or.inr ⟨⟨500, "err"⟩, rfl, by decide⟩)

/-- C1 counterexample: the warning-only response of procEnvA parses to a
truthy dict that lacks job_id and model_id, yet the iteration does not
report idle and does not return cleanly: process_jobs takes the job path
and raises KeyError on the missing job_id key.  The job/idle decision is
dict truthiness, not key presence. -/
theorem C1_counterexample :
    dictTruthy (some [("warning", JVal.s "w")]) = true
    ∧ (([("warning", JVal.s "w")] : Jdict).lookup "job_id") = none
    ∧ (process_jobs cfgA procEnvA).result = .error (.exc "KeyError: job_id")
    ∧ (process_jobs cfgA procEnvA).loggedNoJob = false
    ∧ (process_jobs cfgA procEnvA).submitted = none :=
  ⟨rfl, rfl, rfl, rfl, rfl⟩

/-- C1 amended: the coordinator response is treated as a job iff the
parsed response data is truthy (non-None and non-empty); the idle report
happens exactly on a falsy response, which returns without executing.  A
truthy response is executed and submitted iff it carries all of job_id,
model_id and temp_credentials; a truthy response missing one of them
raises a KeyError on the job path (no idle report, no submission); a
truthy response with all keys and a successful submission returns
executed. -/
theorem C1_amended_job_detection (cfg : Config) (env : ProcEnv)
    (hne : env.localModelIds.isEmpty = false)
    (rdta : Option Jdict) (lat : ℤ)
    (hok : (send_miner_request cfg cfg.loaded_models.head? cfg.min_deadline
        env.send).result = .ok (rdta, lat)) :
    ((process_jobs cfg env).loggedNoJob = true ↔ dictTruthy rdta = false)
    ∧ (dictTruthy rdta = false →
        (process_jobs cfg env).result = .ok false
        ∧ (process_jobs cfg env).submitted = none)
    ∧ (dictTruthy rdta = true →
        ((process_jobs cfg env).submitted = some (rdta.getD []) ↔
          hasAllJobKeys (rdta.getD []) = true))
    ∧ (dictTruthy rdta = true → hasAllJobKeys (rdta.getD []) = false →
        (process_jobs cfg env).loggedNoJob = false
        ∧ ∃ m, (process_jobs cfg env).result = .error (.exc m))
    ∧ (dictTruthy rdta = true → hasAllJobKeys (rdta.getD []) = true →
        env.submitOk = .ok () → (process_jobs cfg env).result = .ok true) := by
  obtain ⟨lids, senv, tj, sub⟩ := env
  dsimp only at hne hok ⊢
  unfold process_jobs
  rw [if_neg (by simp [hne])]
  dsimp only
  rw [hok]
  dsimp only
  cases htr : dictTruthy rdta with
  | false =>
      simp
  | true =>
      rw [if_neg (by simp : ¬(true = false))]
      cases hj : (rdta.getD []).lookup "job_id" with
      | none => simp [hasAllJobKeys, hj, htr]
      | some vj =>
          cases hmo : (rdta.getD []).lookup "model_id" with
          | none => simp [hasAllJobKeys, hj, hmo, htr]
          | some vm =>
              cases htc : (rdta.getD []).lookup "temp_credentials" with
              | none => simp [hasAllJobKeys, hj, hmo, htc, htr]
              | some vc =>
                  cases sub with
                  | error m => simp [hasAllJobKeys, hj, hmo, htc, htr]
                  | ok u => simp [hasAllJobKeys, hj, hmo, htc, htr]

/-- C1 witness: the amended statement at the complete concrete job of
procEnvJob: the job is submitted and the call returns executed. -/
theorem C1_amended_job_detection_witness :
    (process_jobs cfgA procEnvJob).result = .ok true
    ∧ (process_jobs cfgA procEnvJob).submitted = some jobDict :=
  ⟨(C1_amended_job_detection cfgA procEnvJob rfl (some jobDict) 1 rfl).2.2.2.2
      rfl rfl rfl,
   ((C1_amended_job_detection cfgA procEnvJob rfl (some jobDict) 1 rfl).2.2.1
      rfl).mpr rfl⟩

/-- Helper: process_jobs raises SystemExit only from the empty-local-model
check, and then with status 0. -/
theorem process_jobs_systemExit (cfg : Config) (env : ProcEnv) (code : Nat)
    (h : (process_jobs cfg env).result = .error (.systemExit code)) :
    code = 0 ∧ env.localModelIds = [] := by
  obtain ⟨lids, senv, tj, sub⟩ := env
  dsimp only at h ⊢
  unfold process_jobs at h
  cases lids with
  | nil =>
      simp only [List.isEmpty_nil, if_true] at h
      simp only [Except.error.injEq, PyErr.systemExit.injEq] at h
      exact ⟨h.symm, rfl⟩
  | cons a as =>
      simp only [List.isEmpty_cons, Bool.false_eq_true, if_false] at h
      repeat' split at h
      all_goals simp_all

/-- C5: when the local model storage is empty at the start of an
iteration and the reload window has not yet elapsed since the last
signal time, the iteration terminates the process with SystemExit status
0 (which the except-Exception handler does not absorb), and neither a
reload-signal request nor a job request is issued, no submission and no
sleep happen, and no error is logged. -/
theorem C5_empty_models_clean_exit (cfg : Config) (lst : ℤ) (env : IterEnv)
    (hempty : env.proc.localModelIds = [])
    (hthrottle : env.check.now - lst < cfg.reload_interval) :
    (loop_iteration cfg lst env).outcome = .exited 0
    ∧ (loop_iteration cfg lst env).signalRequestSent = false
    ∧ (loop_iteration cfg lst env).minerRequest = none
    ∧ (loop_iteration cfg lst env).submitted = none
    ∧ (loop_iteration cfg lst env).sleptFor = none
    ∧ (loop_iteration cfg lst env).loggedIterError = false := by
  obtain ⟨cenv, penv⟩ := env
  obtain ⟨now, post, jm, lids, rok⟩ := cenv
  obtain ⟨plids, senv, tj, sub⟩ := penv
  dsimp only at hempty hthrottle ⊢
  subst hempty
  unfold loop_iteration check_and_reload_model process_jobs
  rw [if_neg (not_le.mpr hthrottle)]
  exact ⟨rfl, rfl, rfl, rfl, rfl, rfl⟩

/-- C5 witness: cfgA at iterEnvEmpty (reload check at time 5 inside the
600-second window since time 0, empty local storage) exits cleanly with
no network effect. -/
theorem C5_empty_models_clean_exit_witness :
    (loop_iteration cfgA 0 iterEnvEmpty).outcome = .exited 0
    ∧ (loop_iteration cfgA 0 iterEnvEmpty).signalRequestSent = false
    ∧ (loop_iteration cfgA 0 iterEnvEmpty).minerRequest = none
    ∧ (loop_iteration cfgA 0 iterEnvEmpty).submitted = none
    ∧ (loop_iteration cfgA 0 iterEnvEmpty).sleptFor = none
    ∧ (loop_iteration cfgA 0 iterEnvEmpty).loggedIterError = false :=
  C5_empty_models_clean_exit cfgA 0 iterEnvEmpty rfl (by decide)

/-- C6: an iteration of the worker loop that continues (does not
terminate the process) sleeps sleep_duration iff its executed flag is
false; an iteration that executed a job re-enters the loop with no
sleep. -/
theorem C6_sleep_iff_not_executed (cfg : Config) (lst : ℤ) (env : IterEnv)
    (lst2 : ℤ) (ex : Bool)
    (h : (loop_iteration cfg lst env).outcome = .next lst2 ex) :
    (loop_iteration cfg lst env).sleptFor =
      (if ex = true then none else some cfg.sleep_duration) := by
  unfold loop_iteration at h ⊢
  dsimp only at h ⊢
  cases hc : (check_and_reload_model cfg lst env.check).result with
  | error m =>
      rw [hc] at h
      dsimp only at h ⊢
      obtain ⟨h1, h2⟩ := IterOutcome.next.inj h
      subst h2
      rfl
  | ok lstr =>
      rw [hc] at h
      dsimp only at h ⊢
      cases hp : (process_jobs cfg env.proc).result with
      | error e =>
          cases e with
          | exc m =>
              rw [hp] at h
              dsimp only at h ⊢
              obtain ⟨h1, h2⟩ := IterOutcome.next.inj h
              subst h2
              rfl
          | systemExit c =>
              rw [hp] at h
              dsimp only at h
              exact absurd h (by simp)
      | ok b =>
          rw [hp] at h
          dsimp only at h ⊢
          obtain ⟨h1, h2⟩ := IterOutcome.next.inj h
          subst h2
          rfl

/-- C6 witness: the iteration of cfgA at iterEnvWarn continues
not-executed (its job path raises KeyError) and sleeps the configured 2
seconds. -/
theorem C6_sleep_iff_not_executed_witness :
    (loop_iteration cfgA 0 iterEnvWarn).sleptFor = some 2 :=
  C6_sleep_iff_not_executed cfgA 0 iterEnvWarn 700 false rfl

/-- C7: an Exception raised by the reload check is caught: the iteration
logs it, keeps the old last-signal time, reports not-executed and
sleeps; an Exception raised by the job-processing step is caught the
same way, keeping the reload check's returned last-signal time; and the
only way an iteration terminates the worker is SystemExit status 0 from
the empty-local-model-storage condition. -/
theorem C7_iteration_error_containment (cfg : Config) (lst : ℤ)
    (env : IterEnv) :
    ((∃ m, (check_and_reload_model cfg lst env.check).result = .error m) →
        (loop_iteration cfg lst env).outcome = .next lst false
        ∧ (loop_iteration cfg lst env).loggedIterError = true
        ∧ (loop_iteration cfg lst env).sleptFor = some cfg.sleep_duration)
    ∧ (∀ lst2 m,
        (check_and_reload_model cfg lst env.check).result = .ok lst2 →
        (process_jobs cfg env.proc).result = .error (.exc m) →
        (loop_iteration cfg lst env).outcome = .next lst2 false
        ∧ (loop_iteration cfg lst env).loggedIterError = true
        ∧ (loop_iteration cfg lst env).sleptFor = some cfg.sleep_duration)
    ∧ (∀ code, (loop_iteration cfg lst env).outcome = .exited code →
        code = 0 ∧ env.proc.localModelIds = []) := by
  refine ⟨?_, ?_, ?_⟩
  · rintro ⟨m, hm⟩
    unfold loop_iteration
    dsimp only
    rw [hm]
    exact ⟨rfl, rfl, rfl⟩
  · intro lst2 m hc hp
    unfold loop_iteration
    dsimp only
    rw [hc]
    dsimp only
    rw [hp]
    exact ⟨rfl, rfl, rfl⟩
  · intro code h
    unfold loop_iteration at h
    dsimp only at h
    cases hc : (check_and_reload_model cfg lst env.check).result with
    | error m =>
        rw [hc] at h
        dsimp only at h
        exact absurd h (by simp)
    | ok lstr =>
        rw [hc] at h
        dsimp only at h
        cases hp : (process_jobs cfg env.proc).result with
        | error e =>
            cases e with
            | exc m =>
                rw [hp] at h
                dsimp only at h
                exact absurd h (by simp)
            | systemExit c =>
                rw [hp] at h
                dsimp only at h
                obtain h1 := IterOutcome.exited.inj h
                subst h1
                exact process_jobs_systemExit cfg env.proc _ hp
        | ok b =>
            rw [hp] at h
            dsimp only at h
            exact absurd h (by simp)

/-- C7 witness: with the reload check of iterEnvRaise raising a
connection error, the iteration of cfgA logs it, continues not-executed
with the old last-signal time 0, and sleeps. -/
theorem C7_iteration_error_containment_witness :
    (loop_iteration cfgA 0 iterEnvRaise).outcome = .next 0 false
    ∧ (loop_iteration cfgA 0 iterEnvRaise).loggedIterError = true
    ∧ (loop_iteration cfgA 0 iterEnvRaise).sleptFor = some 2 :=
  (C7_iteration_error_containment cfgA 0 iterEnvRaise).1
    ⟨"connection reset", rfl⟩

/-- Helper: validation raises whenever the MINER_ID list has an unset
entry. -/
theorem validate_miner_ids_error {l : List (Option String)} (h : none ∈ l) :
    ∃ m, validate_miner_ids l = .error m := by
  induction l with
  | nil => cases h
  | cons a rest ih =>
      cases a with
      | none => exact ⟨_, rfl⟩
      | some s =>
          rcases List.mem_cons.mp h with hbad | hmem


          · cases hbad
          · obtain ⟨m, hm⟩ := ih hmem
            exact ⟨m, by simp [validate_miner_ids, hm]⟩

/-- Helper: validation of an all-set MINER_ID list returns its values. -/
theorem validate_miner_ids_map_some (l : List String) :
    validate_miner_ids (l.map some) = .ok l := by
  induction l with
  | nil => rfl
  | cons a rest ih => simp [validate_miner_ids, ih]

/-- C8 counterexample: with MINER_ID_0 and MINER_ID_1 both set to 0xA and
two devices configured, construction succeeds for both devices and
assigns them the same identity: distinctness is not validated or
enforced. -/
theorem C8_counterexample :
    minerConfig_miner_id (fun _ => some "0xA") 2 0 = .ok "0xA"
    ∧ minerConfig_miner_id (fun _ => some "0xA") 2 1 = .ok "0xA" :=
  ⟨rfl, rfl⟩

/-- C8 amended: if any MINER_ID_j for j below the configured device count
is unset, construction fails with ValueError; when every MINER_ID_j is
set, more than one device is configured and MINER_ID_i is non-empty,
device i is assigned the value of MINER_ID_i — without any distinctness
guarantee across devices; and an identity not prefixed 0x is exactly
what the validation loop warns about, the warning being non-fatal (the
assignment above succeeds with no condition on the prefix). -/
theorem C8_amended_miner_identity (envVar : Nat → Option String) (n i : Nat)
    (hi : i < n) :
    ((∃ j, j < n ∧ envVar j = none) →
        ∃ m, minerConfig_miner_id envVar n i = .error m)
    ∧ (∀ ids : Nat → String,
        (∀ j, j < n → envVar j = some (ids j)) → 1 < n → ids i ≠ "" →
        minerConfig_miner_id envVar n i = .ok (ids i))
    ∧ (∀ l : List String, ∀ s,
        s ∈ miner_id_warnings l ↔ (s ∈ l ∧ s.startsWith "0x" = false)) := by
  refine ⟨?_, ?_, ?_⟩
  · rintro ⟨j, hj, hnone⟩
    have hmem : none ∈ (List.range n).map envVar :=
      List.mem_map.mpr ⟨j, List.mem_range.mpr hj, hnone⟩
    obtain ⟨m, hm⟩ := validate_miner_ids_error hmem
    exact ⟨m, by unfold minerConfig_miner_id; rw [hm]⟩
  · intro ids hall hn hne
    have hmap : (List.range n).map envVar = ((List.range n).map ids).map some := by
      rw [List.map_map]
      exact List.map_congr_left fun a ha => hall a (List.mem_range.mp ha)
    unfold minerConfig_miner_id
    rw [hmap, validate_miner_ids_map_some]
    have hlen : i < ((List.range n).map ids).length := by simpa using hi
    have hget : ((List.range n).map ids).getD i "" = ids i := by
      rw [List.getD_eq_getElem _ _ hlen]
      simp
    dsimp only
    unfold assign_miner_id
    rw [hget, if_pos ⟨hn, hne⟩]
  · intro l s
    simp [miner_id_warnings, List.mem_filter]

/-- C8 witness: the amended statement at two devices with distinct set
identities: device 1 is assigned MINER_ID_1. -/
theorem C8_amended_miner_identity_witness :
    minerConfig_miner_id (fun j => if j = 0 then some "0xA" else some "0xB")
      2 1 = .ok "0xB" :=
  (C8_amended_miner_identity
      (fun j => if j = 0 then some "0xA" else some "0xB") 2 1 (by decide)).2.1
    (fun j => if j = 0 then "0xA" else "0xB")
    (by intro j hj; interval_cases j <;> rfl) (by decide) (by decide)

/-- C9: when the configured device count exceeds the physically available
CUDA device count, the supervisor exits with status 1 and spawns no
worker process; the gate runs before check_cuda, the config-file fetch
and the updater-thread start. -/
theorem C9_device_count_gate (cfg : Config) (avail : Nat)
    (pre : Except String Unit) (h : avail < cfg.num_cuda_devices) :
    (supervisor_startup cfg avail pre).spawned = []
    ∧ (supervisor_startup cfg avail pre).result = .error (.systemExit 1) := by
  unfold supervisor_startup
  rw [if_pos h]
  exact ⟨rfl, rfl⟩

/-- C9 witness: cfgA configures one device; with zero available devices
the supervisor exits with status 1 and spawns nothing. -/
theorem C9_device_count_gate_witness :
    (supervisor_startup cfgA 0 (.ok ())).spawned = []
    ∧ (supervisor_startup cfgA 0 (.ok ())).result = .error (.systemExit 1) :=
  C9_device_count_gate cfgA 0 (.ok ()) (by decide)

/-- C10: with an empty loaded-model set but non-empty local storage,
process_jobs does not fail at the model-selection layer: it selects None
as the active model, issues the job request with model_id None, and
never raises SystemExit. -/
theorem C10_none_active_model (cfg : Config) (env : ProcEnv)
    (hload : cfg.loaded_models = [])
    (hne : env.localModelIds.isEmpty = false) :
    (process_jobs cfg env).minerRequest =
      some (send_miner_request cfg none cfg.min_deadline env.send).request
    ∧ (∀ rd, (process_jobs cfg env).minerRequest = some rd →
        rd.model_id = none)
    ∧ (∀ c, (process_jobs cfg env).result ≠ .error (.systemExit c)) := by
  obtain ⟨lids, senv, tj, sub⟩ := env
  unfold process_jobs
  rw [hload]
  dsimp only
  simp only [List.head?_nil]
  rw [if_neg (by simp_all)]
  refine ⟨?_, ?_, ?_⟩
  · repeat' split
    all_goals rfl
  · intro rd hrd
    revert hrd
    repeat' split
    all_goals
      intro hrd
    all_goals
      rw [← Option.some.inj hrd,
        (send_miner_request_spec cfg none cfg.min_deadline senv).1]
  · intro c
    repeat' split
    all_goals simp

/-- C10 witness: cfgNoLoaded (no loaded model) with procEnvA (model m1
locally stored) issues the request with model_id None and the heartbeat
fields unattached. -/
theorem C10_none_active_model_witness :
    (process_jobs cfgNoLoaded procEnvA).minerRequest =
      some { miner_id := "0xabc", model_id := none, min_deadline := 60,
             hardware := none, version := none } :=
  (C10_none_active_model cfgNoLoaded procEnvA rfl rfl).1

end SDMiner
